import Mathlib

/-!
A verification development for the photo-organizer core: the geocoding
cache with granularity classification (src/location.py, src/cache.py),
the templated path planner with collision resolution
(src/path_generator.py), and the transactional file mover with integrity
verification (src/organizer.py, src/utils.py).

Python data is embedded shallowly: coordinates are rationals rounded
half-to-even as Python's round does on exact values, strings are Lean
strings with explicit models of str.lower and the substring test, the
SQLite store is an association list keyed by the rounded coordinate pair
together with a failure flag modelling storage errors (sqlite3.Error),
and the filesystem is a map from paths to optional byte contents.
Format strings are represented by their parsed placeholder sequences.
-/

namespace PhotoOrg

/-! String helpers: models of Python str operations used by location.py. -/

/-- Model of str.lower restricted to the per-character case mapping. -/
def lowerStr (s : String) : String :=
  String.mk (s.data.map Char.toLower)

/-- Model of Python substring containment: true when needle occurs
contiguously in hay (the empty needle occurs in every string). -/
def subListOf (needle : List Char) : List Char → Bool
  | [] => needle.isEmpty
  | c :: rest => needle.isPrefixOf (c :: rest) || subListOf needle rest

/-- Python expression needle in hay on strings. -/
def strIn (needle hay : String) : Bool :=
  subListOf needle.data hay.data

/-- Character predicate of normalize name: alphanumeric, underscore or hyphen. -/
def keepChar (c : Char) : Bool :=
  c.isAlphanum || c == '_' || c == '-'

/-- LocationIntelligence normalize name: replace spaces with underscores,
then drop every character that is not alphanumeric, underscore or hyphen. -/
def normalize_name (name : String) : String :=
  String.mk ((name.data.map (fun c => if c = ' ' then '_' else c)).filter keepChar)

/-- Static US state plus DC abbreviation table from location.py. -/
def state_abbrev : List (String × String) :=
  [("Alabama", "AL"), ("Alaska", "AK"), ("Arizona", "AZ"), ("Arkansas", "AR"),
   ("California", "CA"), ("Colorado", "CO"), ("Connecticut", "CT"), ("Delaware", "DE"),
   ("Florida", "FL"), ("Georgia", "GA"), ("Hawaii", "HI"), ("Idaho", "ID"),
   ("Illinois", "IL"), ("Indiana", "IN"), ("Iowa", "IA"), ("Kansas", "KS"),
   ("Kentucky", "KY"), ("Louisiana", "LA"), ("Maine", "ME"), ("Maryland", "MD"),
   ("Massachusetts", "MA"), ("Michigan", "MI"), ("Minnesota", "MN"), ("Mississippi", "MS"),
   ("Missouri", "MO"), ("Montana", "MT"), ("Nebraska", "NE"), ("Nevada", "NV"),
   ("New Hampshire", "NH"), ("New Jersey", "NJ"), ("New Mexico", "NM"), ("New York", "NY"),
   ("North Carolina", "NC"), ("North Dakota", "ND"), ("Ohio", "OH"), ("Oklahoma", "OK"),
   ("Oregon", "OR"), ("Pennsylvania", "PA"), ("Rhode Island", "RI"), ("South Carolina", "SC"),
   ("South Dakota", "SD"), ("Tennessee", "TN"), ("Texas", "TX"), ("Utah", "UT"),
   ("Vermont", "VT"), ("Virginia", "VA"), ("Washington", "WA"), ("West Virginia", "WV"),
   ("Wisconsin", "WI"), ("Wyoming", "WY"), ("District of Columbia", "DC")]

/-- LocationIntelligence get state abbreviation: table lookup, names absent
from the table pass through unchanged. -/
def get_state_abbreviation (state : String) : String :=
  match state_abbrev.find? (fun p => p.1 == state) with
  | some p => p.2
  | none => state

/-- Parsed address produced by parse geocode result in location.py. -/
structure LocationData where
  country : String
  state : String
  city : String
  county : String
deriving DecidableEq

/-- The in-US test of apply granularity rules: substring match against
"United States" or "USA", or exact equality with "US". -/
def isUS (country : String) : Bool :=
  strIn "United States" country || strIn "USA" country || country == "US"

/-- A park matches when its lowercased name occurs in the lowercased
county or the lowercased city. -/
def parkMatches (ld : LocationData) (park : String) : Bool :=
  strIn (lowerStr park) (lowerStr ld.county) || strIn (lowerStr park) (lowerStr ld.city)

/-- A configured major-city name matches when its lowercased form occurs
in the lowercased city field. -/
def cityMatches (ld : LocationData) (mc : String) : Bool :=
  strIn (lowerStr mc) (lowerStr ld.city)

/-- LocationIntelligence apply granularity rules, returning the folder
name together with the granularity string that the Python code stores
into the location dictionary.  The Python set of parks is embedded as a
list iterated in order. -/
def apply_granularity_rules (parks cities : List String) (ld : LocationData) :
    String × String :=
  if !isUS ld.country then
    (if ld.country = "" then "Unknown" else normalize_name ld.country, "country")
  else
    match parks.find? (parkMatches ld) with
    | some park =>
        (get_state_abbreviation ld.state ++ "-" ++ normalize_name park, "national_park")
    | none =>
        if (ld.city != "") && cities.any (cityMatches ld) then
          (get_state_abbreviation ld.state ++ "-" ++ normalize_name ld.city, "major_city")
        else
          (if ld.state = "" then "Unknown" else get_state_abbreviation ld.state, "state")

/-- Default major US cities from location.py, in source order. -/
def default_major_cities : List String :=
  ["New York", "Los Angeles", "Chicago", "Houston", "Phoenix",
   "Philadelphia", "San Antonio", "San Diego", "Dallas", "San Francisco",
   "Seattle", "Boston", "Miami", "Atlanta", "Denver", "Las Vegas",
   "Portland", "Austin", "Nashville", "Washington"]

/-- Default US national parks from location.py, in source order. -/
def default_national_parks : List String :=
  ["Yosemite", "Yellowstone", "Grand Canyon", "Zion", "Rocky Mountain",
   "Acadia", "Grand Teton", "Olympic", "Glacier", "Bryce Canyon",
   "Arches", "Joshua Tree", "Great Smoky Mountains", "Shenandoah",
   "Canyonlands", "Mount Rainier", "Sequoia", "Kings Canyon",
   "Death Valley", "Badlands"]

/-! Coordinate rounding and the SQLite-backed geocoding cache (cache.py).
Coordinates are rationals; Python's round(x, p) is modelled as rounding
x * 10 ^ p to the nearest integer with ties to even, divided back. -/

/-- Python round(x, p) on an exact rational value, encoded as the scaled
integer round(x * 10 ^ p) with ties to even; at a fixed precision this is
an injective encoding of the rounded value, so two coordinates collide on
this key exactly when Python's round(x, p) agrees on them.  Working with
x * 10 ^ p as the unnormalized fraction (num * 10 ^ p) / den keeps the
whole computation on integers: f is the floor and r = n - f * d is in
[0, d), so the fractional part is below one half iff 2r < d. -/
def roundCoord (p : ℕ) (x : ℚ) : ℤ :=
  let n := x.num * ((10 ^ p : ℕ) : ℤ)
  let d := (x.den : ℤ)
  let f := Int.fdiv n d
  let r := n - f * d
  if 2 * r < d then f
  else if d < 2 * r then f + 1
  else if f % 2 = 0 then f else f + 1

/-- A row of the geocoding cache table: value columns plus timestamp. -/
structure CacheEntry where
  location_name : String
  granularity : String
  country : String
  state : String
  city : String
  cached_at : ℕ
deriving DecidableEq

/-- Rounded coordinate pair (scaled-integer encoding), the primary key of
the cache table. -/
abbrev CacheKey := ℤ × ℤ

/-- Association-list lookup over the cache table rows. -/
def lookupRow : List (CacheKey × CacheEntry) → CacheKey → Option CacheEntry
  | [], _ => none
  | r :: rest, k => if r.1 = k then some r.2 else lookupRow rest k

/-- The durable SQLite store: rows keyed by rounded coordinates, plus a
failure flag under which every query or write raises sqlite3.Error. -/
structure Store where
  rows : List (CacheKey × CacheEntry)
  failing : Bool

/-- SELECT of cache get; raises on storage failure. -/
def Store.query (σ : Store) (k : CacheKey) : Except String (Option CacheEntry) :=
  if σ.failing then .error "storage failure" else .ok (lookupRow σ.rows k)

/-- INSERT OR REPLACE of cache set; raises on storage failure.  The upsert
drops any existing row at the key and prepends the new row. -/
def Store.write (σ : Store) (k : CacheKey) (e : CacheEntry) : Except String Store :=
  if σ.failing then .error "storage failure"
  else .ok ⟨(k, e) :: σ.rows.filter (fun r => decide (r.1 ≠ k)), σ.failing⟩

/-- GeocodingCache: an optional connection to the store (none once closed). -/
structure GeocodingCache where
  conn : Option Store

/-- The location dictionary as consumed by GeocodingCache.set: exactly the
five string fields the INSERT reads (county is dropped by the source). -/
structure LocRecord where
  location_name : String
  granularity : String
  country : String
  state : String
  city : String
deriving DecidableEq

/-- Row built by GeocodingCache.set from the location dictionary and the
current time. -/
def entryOfRecord (r : LocRecord) (now : ℕ) : CacheEntry :=
  ⟨r.location_name, r.granularity, r.country, r.state, r.city, now⟩

/-- GeocodingCache.get: returns none when no connection is open; otherwise
queries at the rounded key.  The source wraps no try block around the
query, so a storage error propagates to the caller. -/
def cache_get (c : GeocodingCache) (lat lon : ℚ) (precision : ℕ) :
    Except String (Option CacheEntry) :=
  match c.conn with
  | none => .ok none
  | some σ => σ.query (roundCoord precision lat, roundCoord precision lon)

/-- GeocodingCache.set: no-op when no connection is open; the write is
wrapped in try/except sqlite3.Error, so a storage failure is logged,
rolled back and swallowed, leaving the cache unchanged. -/
def cache_set (c : GeocodingCache) (lat lon : ℚ) (r : LocRecord) (now : ℕ)
    (precision : ℕ) : GeocodingCache :=
  match c.conn with
  | none => c
  | some σ =>
    match σ.write (roundCoord precision lat, roundCoord precision lon)
        (entryOfRecord r now) with
    | .ok σ2 => ⟨some σ2⟩
    | .error _ => c

/-- A fresh cache over an empty, healthy store. -/
def emptyCache : GeocodingCache := ⟨some ⟨[], false⟩⟩

/-! The location classifier (location.py).  The geocoding providers are
external network services; they are modelled as an oracle: an optional
LocationIQ provider (present when an API key is configured) and the
always-available Nominatim fallback, each mapping coordinates to an
optional parsed address. -/

/-- Provider oracle for the geocode chain. -/
structure GeoOracle where
  locationiq : Option (ℚ → ℚ → Option LocationData)
  nominatim : ℚ → ℚ → Option LocationData

/-- LocationIntelligence geocode: LocationIQ first when configured, falling
through to Nominatim.  Also returns how many provider calls were made. -/
def geocodeChain (g : GeoOracle) (lat lon : ℚ) : Option LocationData × ℕ :=
  match g.locationiq with
  | some prov =>
    match prov lat lon with
    | some r => (some r, 1)
    | none => (g.nominatim lat lon, 2)
  | none => (g.nominatim lat lon, 1)

/-- LocationIntelligence get location name: cache lookup at precision 4; on
hit return the cached name with no provider call; on miss run the provider
chain; on chain failure return "Unknown" without caching; on success apply
the granularity rules and write the classified record through to the
cache.  The result carries the returned name, the cache after the call,
and the number of provider calls made. -/
def get_location_name (parks cities : List String) (geo : GeoOracle) (now : ℕ)
    (c : GeocodingCache) (lat lon : ℚ) :
    Except String (String × GeocodingCache × ℕ) :=
  match cache_get c lat lon 4 with
  | .error e => .error e
  | .ok (some entry) => .ok (entry.location_name, c, 0)
  | .ok none =>
    match geocodeChain geo lat lon with
    | (none, n) => .ok ("Unknown", c, n)
    | (some ld, n) =>
      let res := apply_granularity_rules parks cities ld
      .ok (res.1, cache_set c lat lon ⟨res.1, res.2, ld.country, ld.state, ld.city⟩ now 4, n)

/-! The path generator (path_generator.py).  A filename format string is
embedded as its parsed sequence of placeholders and literal pieces; paths
are a directory component list together with a filename. -/

/-- One piece of a parsed filename pattern. -/
inductive TItem where
  | lit (s : String)
  | date
  | year
  | month
  | day
  | origName
  | ext
  | counter
deriving DecidableEq, BEq

/-- Values substituted for the placeholders of a pattern. -/
structure Subst where
  date : String
  year : String
  month : String
  day : String
  origName : String
  ext : String
  counter : String
deriving DecidableEq

/-- Text contributed by one pattern item under a substitution. -/
def itemText (v : Subst) : TItem → String
  | .lit s => s
  | .date => v.date
  | .year => v.year
  | .month => v.month
  | .day => v.day
  | .origName => v.origName
  | .ext => v.ext
  | .counter => v.counter

/-- Render a parsed pattern under a substitution (str.format). -/
def renderPattern (pat : List TItem) (v : Subst) : String :=
  (pat.map (itemText v)).foldl (· ++ ·) ""

/-- Date taken, as extracted from metadata (datetime year, month, day). -/
structure PyDate where
  year : ℕ
  month : ℕ
  day : ℕ
deriving DecidableEq

/-- MediaMetadata from metadata.py restricted to the fields this core
reads: source filename stem and suffix, optional date, optional GPS. -/
structure MediaMetadata where
  stem : String
  suffix : String
  date_taken : Option PyDate
  gps_coords : Option (ℚ × ℚ)
deriving DecidableEq

/-- Zero-pad to two digits, as the Python format 02d does. -/
def pad2 (n : ℕ) : String :=
  if n < 10 then "0" ++ toString n else toString n

/-- Zero-pad to four digits, as the Python format 04d does. -/
def pad4 (n : ℕ) : String :=
  if n < 10 then "000" ++ toString n
  else if n < 100 then "00" ++ toString n
  else if n < 1000 then "0" ++ toString n
  else toString n

/-- strftime with the format yyyy-mm-dd. -/
def isoDate (d : PyDate) : String :=
  pad4 d.year ++ "-" ++ pad2 d.month ++ "-" ++ pad2 d.day

/-- A target path: directory components and a filename. -/
structure TPath where
  dir : List String
  name : String
deriving DecidableEq

/-- PathGenerator configuration: destination root and parsed pattern. -/
structure PathGenerator where
  destination_root : List String
  filename_pattern : List TItem

/-- The substitution used by generate filename and by the counter loop of
ensure unique path: date components padded when a date is known, all four
date values the literal "Unknown" otherwise. -/
def substFor (m : MediaMetadata) (datePfx counter : String) : Subst :=
  match m.date_taken with
  | some d => ⟨datePfx, pad4 d.year, pad2 d.month, pad2 d.day, m.stem, m.suffix, counter⟩
  | none => ⟨"Unknown", "Unknown", "Unknown", "Unknown", m.stem, m.suffix, counter⟩

/-- PathGenerator generate filename: render the pattern with counter
substituted by the empty string. -/
def generate_filename (g : PathGenerator) (m : MediaMetadata) (datePfx : String) : String :=
  renderPattern g.filename_pattern (substFor m datePfx "")

/-- Python truthiness default: an absent or empty location name becomes
"Unknown". -/
def orUnknown : Option String → String
  | none => "Unknown"
  | some s => if s = "" then "Unknown" else s

/-- PathGenerator generate path: root/year/month/location/filename when a
date is known, root/Unknown_Date/location/filename otherwise (the month
component is omitted in the sentinel branch). -/
def generate_path (g : PathGenerator) (m : MediaMetadata) (location_name : Option String) :
    TPath :=
  match m.date_taken with
  | some d =>
    ⟨g.destination_root ++ [toString d.year, pad2 d.month, orUnknown location_name],
     generate_filename g m (isoDate d)⟩
  | none =>
    ⟨g.destination_root ++ ["Unknown_Date", orUnknown location_name],
     generate_filename g m "Unknown"⟩

/-- Index of the last dot in a character list, if any. -/
def lastDotIdx (cs : List Char) : Option ℕ :=
  ((List.range cs.length).filter (fun i => cs.getD i ' ' == '.')).getLast?

/-- pathlib stem and suffix of a filename: split at the last dot when it
is neither the first nor the last character, otherwise the suffix is
empty. -/
def splitStemExt (name : String) : String × String :=
  let cs := name.data
  match lastDotIdx cs with
  | some i =>
    if 0 < i ∧ i < cs.length - 1 then (String.mk (cs.take i), String.mk (cs.drop i))
    else (name, "")
  | none => (name, "")

/-- The candidate tried at counter value k when the pattern holds the
counter placeholder: the pattern re-rendered with counter set to _k in
the directory of the colliding target. -/
def counterCand (g : PathGenerator) (m : MediaMetadata) (dir : List String) (k : ℕ) :
    TPath :=
  ⟨dir, renderPattern g.filename_pattern
    (substFor m (match m.date_taken with | some d => isoDate d | none => "Unknown")
      ("_" ++ toString k))⟩

/-- The fallback candidate at counter value k: stem_k with the extension
re-appended, in the directory of the colliding target. -/
def fallbackCand (target : TPath) (k : ℕ) : TPath :=
  ⟨target.dir, (splitStemExt target.name).1 ++ "_" ++ toString k ++ (splitStemExt target.name).2⟩

/-- The collision loop: try candidates at k, k+1, ... while fuel lasts,
returning the first whose path does not exist, none once the fuel is
spent (the ValueError raised after the counter passes 1000). -/
def firstFree (ex : TPath → Bool) (cand : ℕ → TPath) : ℕ → ℕ → Option TPath
  | _, 0 => none
  | k, fuel + 1 => if ex (cand k) then firstFree ex cand (k + 1) fuel else some (cand k)

/-- PathGenerator ensure unique path over an existence predicate ex: the
target is returned unchanged when it does not exist; with the counter
placeholder in the pattern and metadata available the pattern is
re-rendered with counters _1 ... _1000; otherwise _1 ... _1000 is pinned
between stem and extension; none models the ValueError raised when all
1000 attempts collide. -/
def ensure_unique_path (g : PathGenerator) (ex : TPath → Bool) (target : TPath)
    (metadata : Option MediaMetadata) : Option TPath :=
  if ex target then
    match metadata, g.filename_pattern.contains .counter with
    | some m, true => firstFree ex (counterCand g m target.dir) 1 1000
    | _, _ => firstFree ex (fallbackCand target) 1 1000
  else some target

/-! File contents, integrity verification (utils.py) and the transactional
file operation (organizer.py).  Byte strings are lists of naturals; the
cryptographic hash is a parameter, as its algebraic properties are not
relied on by the claims; the filesystem maps paths to optional contents.
A transmission function models the physical byte copy, which may corrupt
data in flight — the situation integrity verification exists to catch. -/

abbrev Bytes := List ℕ

abbrev FS := TPath → Option Bytes

/-- Pointwise filesystem update. -/
def fsUpdate (fs : FS) (p : TPath) (v : Option Bytes) : FS :=
  fun q => if q = p then v else fs q

/-- verify file integrity from utils.py: false when either file is
missing; false on a size mismatch without consulting the hash; otherwise
compare the full-content digests. -/
def verify_file_integrity (fs : FS) (h : Bytes → ℕ) (source destination : TPath) : Bool :=
  match fs source, fs destination with
  | some s, some d =>
    if s.length ≠ d.length then false
    else h s == h d
  | _, _ => false

/-- One TransactionRecord of the run log. -/
structure TxRecord where
  timestamp : ℕ
  operation : String
  source : TPath
  destination : TPath
  success : Bool
  error : Option String
deriving DecidableEq

/-- TransactionLog log operation: append one record. -/
def log_operation (log : List TxRecord) (now : ℕ) (op : String) (src dst : TPath)
    (success : Bool) (error : Option String) : List TxRecord :=
  log ++ [⟨now, op, src, dst, success, error⟩]

/-- Operation mode of the organizer. -/
inductive OpMode where
  | move
  | copy
deriving DecidableEq

/-- The mode string used in transaction records and messages. -/
def OpMode.str : OpMode → String
  | .move => "move"
  | .copy => "copy"

/-- PhotoOrganizer perform file operation.  A missing source makes shutil
raise, which the enclosing except turns into a logged failure.  Move
transfers the bytes and is not re-verified.  Copy writes the transmitted
bytes; under verify, an integrity failure deletes the destination copy,
logs a failure record and returns false; otherwise a success record is
logged.  Returns (success, filesystem, log). -/
def perform_file_operation (mode : OpMode) (verify : Bool) (h : Bytes → ℕ)
    (transmit : Bytes → Bytes) (now : ℕ) (fs : FS) (log : List TxRecord)
    (source destination : TPath) : Bool × FS × List TxRecord :=
  match fs source with
  | none =>
    (false, fs, log_operation log now mode.str source destination false (some "source missing"))
  | some b =>
    match mode with
    | .move =>
      (true, fsUpdate (fsUpdate fs source none) destination (some b),
       log_operation log now "move" source destination true none)
    | .copy =>
      let fs1 := fsUpdate fs destination (some (transmit b))
      if verify && !(verify_file_integrity fs1 h source destination) then
        (false, fsUpdate fs1 destination none,
         log_operation log now "copy" source destination false
           (some "Integrity verification failed"))
      else
        (true, fs1, log_operation log now "copy" source destination true none)

/-! Statistics (utils.py) and the per-file pipeline (organizer.py). -/

/-- The Statistics accumulator. -/
structure Statistics where
  total_files : ℕ
  processed_files : ℕ
  skipped_files : ℕ
  failed_files : ℕ
  files_with_gps : ℕ
  files_without_gps : ℕ
  files_with_date : ℕ
  files_without_date : ℕ
  unique_locations : List String
  duplicates_found : ℕ
  api_calls_made : ℕ
  cache_hits : ℕ
  errors : List String
deriving DecidableEq

def record_processed (s : Statistics) : Statistics :=
  { s with processed_files := s.processed_files + 1 }

def record_failed (s : Statistics) (msg : String) : Statistics :=
  { s with failed_files := s.failed_files + 1, errors := s.errors ++ [msg] }

def record_gps (s : Statistics) (hasGps : Bool) : Statistics :=
  if hasGps then { s with files_with_gps := s.files_with_gps + 1 }
  else { s with files_without_gps := s.files_without_gps + 1 }

def record_date (s : Statistics) (hasDate : Bool) : Statistics :=
  if hasDate then { s with files_with_date := s.files_with_date + 1 }
  else { s with files_without_date := s.files_without_date + 1 }

def record_location (s : Statistics) (loc : String) : Statistics :=
  if s.unique_locations.contains loc then s
  else { s with unique_locations := s.unique_locations ++ [loc] }

def record_duplicate (s : Statistics) : Statistics :=
  { s with duplicates_found := s.duplicates_found + 1 }

def record_api_call (s : Statistics) : Statistics :=
  { s with api_calls_made := s.api_calls_made + 1 }

def record_cache_hit (s : Statistics) : Statistics :=
  { s with cache_hits := s.cache_hits + 1 }

/-- State shared across a run: cache, filesystem, transaction log,
statistics and the duplicates report entries. -/
structure RunState where
  cache : GeocodingCache
  fs : FS
  log : List TxRecord
  stats : Statistics
  duplicates : List (TPath × TPath)

/-- Run configuration of the organizer. -/
structure OrganizerConfig where
  mode : OpMode
  dry_run : Bool
  verify : Bool
  pathGen : PathGenerator
  parks : List String
  cities : List String
  geo : GeoOracle
  hash : Bytes → ℕ

/-- Per-file external inputs: the source path, the outcome of metadata
extraction (which may raise), whether create directory succeeds, the
transmission behaviour of the physical copy, and the wall-clock time. -/
structure FileInput where
  path : TPath
  extract : Except String MediaMetadata
  mkdirOk : Bool
  transmit : Bytes → Bytes
  now : ℕ

/-- The except-branch of process file: one failure recorded with the
file name prefixed to the exception text. -/
def failWith (st : RunState) (f : FileInput) (e : String) : RunState :=
  { st with stats := record_failed st.stats (f.path.name ++ ": " ++ e) }

/-- The location block of process file: nothing when GPS is absent;
otherwise organizer-level cache probe, counting a cache hit, or a full
classification counting an API call; the unique location is recorded.
Storage errors from the unguarded cache reads propagate as exceptions. -/
def locateStep (cfg : OrganizerConfig) (f : FileInput) (st : RunState)
    (m : MediaMetadata) : Except String (Option String × RunState) :=
  match m.gps_coords with
  | none => .ok (none, st)
  | some (lat, lon) =>
    match cache_get st.cache lat lon 4 with
    | .error e => .error e
    | .ok (some entry) =>
      .ok (some entry.location_name,
        { st with stats := record_location (record_cache_hit st.stats) entry.location_name })
    | .ok none =>
      match get_location_name cfg.parks cfg.cities cfg.geo f.now st.cache lat lon with
      | .error e => .error e
      | .ok (lname, c2, _) =>
        .ok (some lname,
          { st with cache := c2, stats := record_location (record_api_call st.stats) lname })

/-- The duplicate-resolution block of process file: when the target
exists, resolve the collision (a ValueError on exhaustion propagates as
an exception), count a duplicate and record the report entry. -/
def uniqueStep (cfg : OrganizerConfig) (f : FileInput) (st : RunState)
    (m : MediaMetadata) (target : TPath) : Except String (TPath × RunState) :=
  if (st.fs target).isSome then
    match ensure_unique_path cfg.pathGen (fun p => (st.fs p).isSome) target (some m) with
    | none => .error ("Could not generate unique path for " ++ target.name)
    | some t =>
      .ok (t, { st with stats := record_duplicate st.stats,
                        duplicates := st.duplicates ++ [(f.path, t)] })
  else .ok (target, st)

/-- PhotoOrganizer process file: extract metadata, record availability
counters, classify the location, plan the target, resolve collisions,
create the directory, and perform (or, under dry run, only count) the
file operation.  Every exception from the inner steps is caught and
recorded as a per-file failure against the state reached so far, exactly
as the mutations already applied to the shared objects persist in the
source. -/
def process_file (cfg : OrganizerConfig) (st : RunState) (f : FileInput) : RunState :=
  match f.extract with
  | .error e => failWith st f e
  | .ok m =>
    let st1 := { st with
      stats := record_gps (record_date st.stats m.date_taken.isSome) m.gps_coords.isSome }
    match locateStep cfg f st1 m with
    | .error e => failWith st1 f e
    | .ok (loc, st2) =>
      match uniqueStep cfg f st2 m (generate_path cfg.pathGen m loc) with
      | .error e => failWith st2 f e
      | .ok (target, st3) =>
        if !(cfg.dry_run || f.mkdirOk) then
          { st3 with stats :=
              record_failed st3.stats ("Failed to create directory for " ++ f.path.name) }
        else if cfg.dry_run then
          { st3 with stats := record_processed st3.stats }
        else
          match perform_file_operation cfg.mode cfg.verify cfg.hash f.transmit f.now
              st3.fs st3.log f.path target with
          | (true, fs2, log2) =>
            { st3 with fs := fs2, log := log2, stats := record_processed st3.stats }
          | (false, fs2, log2) =>
            let msg := "Failed to " ++ cfg.mode.str ++ " " ++ f.path.name
            { st3 with fs := fs2, log := log2, stats := record_failed st3.stats msg }

/-- The per-file loop of organize: process each candidate in order. -/
def process_files (cfg : OrganizerConfig) (files : List FileInput) (st : RunState) :
    RunState :=
  files.foldl (process_file cfg) st

/-! Auxiliary definitions used by the statements below. -/

/-- One cache write, for reasoning about sequences of set operations. -/
structure SetOp where
  lat : ℚ
  lon : ℚ
  data : LocRecord
  now : ℕ

/-- Apply a sequence of set operations at precision p to the fresh cache. -/
def apply_sets (p : ℕ) (ops : List SetOp) : GeocodingCache :=
  ops.foldl (fun c op => cache_set c op.lat op.lon op.data op.now p) emptyCache

/-- A store whose every query and write raises sqlite3.Error. -/
def failing_store : Store := ⟨[], true⟩

/-- A provider oracle with no LocationIQ key whose Nominatim answer is an
address with every field empty: the geocode succeeds, yet the granularity
rules classify it as "Unknown". -/
def unknownOracle : GeoOracle := ⟨none, fun _ _ => some ⟨"", "", "", ""⟩⟩

/-- The cache produced by one classify call on the empty cache under the
empty-address oracle. -/
def c1State : GeocodingCache :=
  match get_location_name [] [] unknownOracle 0 emptyCache 0 0 with
  | .ok res => res.2.1
  | .error _ => emptyCache

/-! Lemmas about the cache store. -/

/-- Filtering out a key other than the one looked up does not change the
lookup result. -/
lemma lookupRow_filter_ne (k q : CacheKey) (h : k ≠ q) :
    ∀ rows : List (CacheKey × CacheEntry),
      lookupRow (rows.filter (fun r => decide (r.1 ≠ q))) k = lookupRow rows k := by
  intro rows
  induction rows with
  | nil => rfl
  | cons r rest ih =>
    simp only [List.filter_cons]
    by_cases hr : r.1 = q
    · have hcond : decide (r.1 ≠ q) = false := by simp [hr]
      have hk : r.1 ≠ k := fun hc => h (hc ▸ hr)
      rw [hcond]
      simp only [Bool.false_eq_true, if_false, lookupRow, if_neg hk]
      exact ih
    · have hcond : decide (r.1 ≠ q) = true := by simp [hr]
      rw [hcond]
      simp only [if_true, lookupRow]
      by_cases hk : r.1 = k
      · rw [if_pos hk, if_pos hk]
      · rw [if_neg hk, if_neg hk]
        exact ih

/-- A get at coordinates rounding to the key just set returns the entry
just written, on a healthy store. -/
lemma cache_get_after_set (σ : Store) (hf : σ.failing = false)
    (lat lon lat' lon' : ℚ) (p : ℕ)
    (hla : roundCoord p lat' = roundCoord p lat) (hlo : roundCoord p lon' = roundCoord p lon)
    (r : LocRecord) (now : ℕ) :
    cache_get (cache_set ⟨some σ⟩ lat lon r now p) lat' lon' p =
      .ok (some (entryOfRecord r now)) := by
  simp [cache_set, Store.write, hf, cache_get, Store.query, hla, hlo, lookupRow]

/-- A set at a different rounded key leaves a get unchanged. -/
lemma cache_get_set_ne (c : GeocodingCache) (lat lon lat' lon' : ℚ) (p : ℕ)
    (r : LocRecord) (now : ℕ)
    (h : (roundCoord p lat, roundCoord p lon) ≠ (roundCoord p lat', roundCoord p lon')) :
    cache_get (cache_set c lat lon r now p) lat' lon' p = cache_get c lat' lon' p := by
  obtain ⟨conn⟩ := c
  match conn with
  | none => simp [cache_set]
  | some σ =>
    by_cases hf : σ.failing
    · simp [cache_set, Store.write, hf]
    · simp only [cache_set, Store.write, hf, Bool.false_eq_true, if_false]
      simp only [cache_get, Store.query, hf, Bool.false_eq_true, if_false]
      simp only [lookupRow, if_neg h]
      rw [lookupRow_filter_ne _ _ (fun hc2 => h hc2.symm) σ.rows]

/-- A key missing from the cache stays missing under writes at other
rounded keys. -/
lemma cache_get_sets_none (p : ℕ) (lat lon : ℚ) :
    ∀ (ops : List SetOp) (c : GeocodingCache),
      cache_get c lat lon p = .ok none →
      (∀ op ∈ ops,
        (roundCoord p op.lat, roundCoord p op.lon) ≠ (roundCoord p lat, roundCoord p lon)) →
      cache_get (ops.foldl (fun c op => cache_set c op.lat op.lon op.data op.now p) c)
        lat lon p = .ok none := by
  intro ops
  induction ops with
  | nil => intro c hc _; exact hc
  | cons op rest ih =>
    intro c hc hops
    simp only [List.foldl_cons]
    apply ih
    · rw [cache_get_set_ne c op.lat op.lon lat lon p op.data op.now
        (hops op (List.mem_cons_self op rest))]
      exact hc
    · intro o ho
      exact hops o (List.mem_cons_of_mem op ho)

/-- C6: for all coordinates rounding to the same key at the same
precision, a set followed by a get returns the most recently set value,
overwriting any existing entry at that rounded key, and a get on a
rounded key never set by any operation of the run returns none. -/
theorem cache_set_get_roundtrip (p : ℕ) (lat lon : ℚ) :
    (∀ (σ : Store) (lat' lon' : ℚ) (r : LocRecord) (now : ℕ),
      σ.failing = false →
      roundCoord p lat' = roundCoord p lat →
      roundCoord p lon' = roundCoord p lon →
      cache_get (cache_set ⟨some σ⟩ lat lon r now p) lat' lon' p =
        .ok (some (entryOfRecord r now)))
    ∧ (∀ ops : List SetOp,
      (∀ op ∈ ops,
        (roundCoord p op.lat, roundCoord p op.lon) ≠ (roundCoord p lat, roundCoord p lon)) →
      cache_get (apply_sets p ops) lat lon p = .ok none) := by
  constructor
  · intro σ lat' lon' r now hf hla hlo
    exact cache_get_after_set σ hf lat lon lat' lon' p hla hlo r now
  · intro ops hops
    exact cache_get_sets_none p lat lon ops emptyCache (by rfl) hops

/-- Witness for C6 at concrete inputs: a set at the origin is read back,
and a key only ever written at other coordinates reads as none. -/
theorem cache_set_get_roundtrip_witness :
    cache_get (cache_set ⟨some ⟨[], false⟩⟩ 0 0 ⟨"CA", "state", "US", "California", "SF"⟩ 7 4)
        0 0 4 = .ok (some ⟨"CA", "state", "US", "California", "SF", 7⟩)
    ∧ cache_get (apply_sets 4 [⟨1, 1, ⟨"X", "state", "", "", ""⟩, 3⟩]) 0 0 4 = .ok none := by
  constructor
  · exact (cache_set_get_roundtrip 4 0 0).1 ⟨[], false⟩ 0 0
      ⟨"CA", "state", "US", "California", "SF"⟩ 7 rfl rfl rfl
  · exact (cache_set_get_roundtrip 4 0 0).2 [⟨1, 1, ⟨"X", "state", "", "", ""⟩, 3⟩] (by decide)

/-- C7 counterexample: on a failing store, cache get does not return none
but propagates the storage error, since the source wraps no exception
handler around the query; the claim that get and set never propagate a
storage error is therefore false as stated. -/
theorem cache_get_propagates_storage_error :
    cache_get ⟨some failing_store⟩ 0 0 4 = .error "storage failure"
    ∧ cache_get ⟨some failing_store⟩ 0 0 4 ≠ .ok none := by
  refine ⟨rfl, ?_⟩
  intro hc
  rw [show cache_get ⟨some failing_store⟩ 0 0 4 = .error "storage failure" from rfl] at hc
  exact Except.noConfusion hc

/-- C7 amended: set swallows a storage failure (the write is rolled back
and the cache is unchanged) and is a no-op without a connection; get
returns none without a connection; but a storage error during a get query
propagates to the caller. -/
theorem cache_error_containment :
    (∀ (σ : Store) (lat lon : ℚ) (r : LocRecord) (now p : ℕ), σ.failing = true →
      cache_set ⟨some σ⟩ lat lon r now p = ⟨some σ⟩)
    ∧ (∀ (lat lon : ℚ) (r : LocRecord) (now p : ℕ), cache_set ⟨none⟩ lat lon r now p = ⟨none⟩)
    ∧ (∀ (lat lon : ℚ) (p : ℕ), cache_get ⟨none⟩ lat lon p = .ok none)
    ∧ (∀ (σ : Store) (lat lon : ℚ) (p : ℕ), σ.failing = true →
      cache_get ⟨some σ⟩ lat lon p = .error "storage failure") := by
  refine ⟨?_, ?_, ?_, ?_⟩
  · intro σ lat lon r now p hf
    simp [cache_set, Store.write, hf]
  · intro lat lon r now p
    rfl
  · intro lat lon p
    rfl
  · intro σ lat lon p hf
    simp [cache_get, Store.query, hf]

/-- Witness for the amended C7 at concrete inputs. -/
theorem cache_error_containment_witness :
    cache_set ⟨some failing_store⟩ 0 0 ⟨"A", "state", "", "", ""⟩ 0 4 = ⟨some failing_store⟩
    ∧ cache_get ⟨some failing_store⟩ 1 1 4 = .error "storage failure" := by
  exact ⟨cache_error_containment.1 failing_store 0 0 ⟨"A", "state", "", "", ""⟩ 0 4 rfl,
    cache_error_containment.2.2.2 failing_store 1 1 4 rfl⟩

/-- C8: on a cache hit, classify returns the cached location name with
zero provider calls and an unchanged cache; and after a first miss whose
provider chain succeeded, re-classifying the same coordinates makes zero
provider calls — the second call does not even depend on the provider
oracle — and returns the same name and cache. -/
theorem classify_cache_hit_no_provider_call :
    (∀ (parks cities : List String) (geo : GeoOracle) (now : ℕ) (c : GeocodingCache)
      (lat lon : ℚ) (entry : CacheEntry),
      cache_get c lat lon 4 = .ok (some entry) →
      get_location_name parks cities geo now c lat lon = .ok (entry.location_name, c, 0))
    ∧ (∀ (parks cities : List String) (geo : GeoOracle) (now : ℕ) (σ : Store)
      (lat lon : ℚ) (ld : LocationData) (n : ℕ) (name : String)
      (c2 : GeocodingCache) (calls : ℕ),
      σ.failing = false →
      cache_get ⟨some σ⟩ lat lon 4 = .ok none →
      geocodeChain geo lat lon = (some ld, n) →
      get_location_name parks cities geo now ⟨some σ⟩ lat lon = .ok (name, c2, calls) →
      ∀ (geo2 : GeoOracle) (now2 : ℕ),
        get_location_name parks cities geo2 now2 c2 lat lon = .ok (name, c2, 0)) := by
  constructor
  · intro parks cities geo now c lat lon entry hhit
    simp [get_location_name, hhit]
  · intro parks cities geo now σ lat lon ld n name c2 calls hf hmiss hchain hrun geo2 now2
    simp only [get_location_name, hmiss, hchain, Except.ok.injEq, Prod.mk.injEq] at hrun
    obtain ⟨hname, hc2, hcalls⟩ := hrun
    have hget := cache_get_after_set σ hf lat lon lat lon 4 rfl rfl
      ⟨(apply_granularity_rules parks cities ld).1, (apply_granularity_rules parks cities ld).2,
        ld.country, ld.state, ld.city⟩ now
    rw [hc2] at hget
    simp [get_location_name, hget, entryOfRecord, hname]

/-- Witness for C8: a hit on a pre-populated cache returns the cached name
with zero calls, and a second classification after a first successful one
makes zero calls even under an oracle whose providers all fail. -/
theorem classify_cache_hit_witness :
    get_location_name [] [] unknownOracle 3
        ⟨some ⟨[((0, 0), ⟨"CA", "major_city", "United States", "California", "SF", 1⟩)], false⟩⟩ 0 0
      = .ok ("CA",
          ⟨some ⟨[((0, 0), ⟨"CA", "major_city", "United States", "California", "SF", 1⟩)], false⟩⟩, 0)
    ∧ get_location_name [] [] ⟨none, fun _ _ => none⟩ 9 c1State 0 0 = .ok ("Unknown", c1State, 0) := by
  constructor
  · exact classify_cache_hit_no_provider_call.1 [] [] unknownOracle 3 _ 0 0
      ⟨"CA", "major_city", "United States", "California", "SF", 1⟩ rfl
  · exact classify_cache_hit_no_provider_call.2 [] [] unknownOracle 0 ⟨[], false⟩ 0 0
      ⟨"", "", "", ""⟩ 1 "Unknown" c1State 1 rfl rfl rfl rfl ⟨none, fun _ _ => none⟩ 9

/-- C1 counterexample: one classify call on the empty cache, under an
oracle whose provider successfully returns an address with every field
empty, writes a cache entry whose location name is the literal "Unknown";
the claim that no cache entry ever has location name "Unknown" after a
sequence of classify calls is therefore false on the code. -/
theorem classify_caches_unknown :
    cache_get c1State 0 0 4 = .ok (some ⟨"Unknown", "country", "", "", "", 0⟩) := rfl

/-- C1 amended: classify writes a cache entry only when the provider
chain returned address data; on a cache hit or on chain failure the cache
is unchanged, so the chain-failure fallback "Unknown" is never cached —
but a successfully geocoded address whose classification is "Unknown" is
written through. -/
theorem classify_cache_write_characterization
    (parks cities : List String) (geo : GeoOracle) (now : ℕ)
    (c : GeocodingCache) (lat lon : ℚ) :
    (∀ n, cache_get c lat lon 4 = .ok none → geocodeChain geo lat lon = (none, n) →
      get_location_name parks cities geo now c lat lon = .ok ("Unknown", c, n))
    ∧ (∀ entry, cache_get c lat lon 4 = .ok (some entry) →
      get_location_name parks cities geo now c lat lon = .ok (entry.location_name, c, 0))
    ∧ (∀ ld n, cache_get c lat lon 4 = .ok none → geocodeChain geo lat lon = (some ld, n) →
      get_location_name parks cities geo now c lat lon =
        .ok ((apply_granularity_rules parks cities ld).1,
          cache_set c lat lon
            ⟨(apply_granularity_rules parks cities ld).1,
             (apply_granularity_rules parks cities ld).2, ld.country, ld.state, ld.city⟩ now 4, n)) := by
  refine ⟨?_, ?_, ?_⟩
  · intro n hmiss hchain
    simp [get_location_name, hmiss, hchain]
  · intro entry hhit
    simp [get_location_name, hhit]
  · intro ld n hmiss hchain
    simp [get_location_name, hmiss, hchain]

/-- Witness for the amended C1: a failed chain returns "Unknown" leaving
the cache untouched, and a successful chain writes through the
classified record. -/
theorem classify_cache_write_characterization_witness :
    get_location_name [] [] ⟨none, fun _ _ => none⟩ 0 emptyCache 0 0 =
      .ok ("Unknown", emptyCache, 1)
    ∧ get_location_name [] [] unknownOracle 0 emptyCache 0 0 =
      .ok ("Unknown", cache_set emptyCache 0 0 ⟨"Unknown", "country", "", "", ""⟩ 0 4, 1) := by
  constructor
  · exact (classify_cache_write_characterization [] [] ⟨none, fun _ _ => none⟩ 0 emptyCache 0 0).1
      1 rfl rfl
  · exact (classify_cache_write_characterization [] [] unknownOracle 0 emptyCache 0 0).2.2
      ⟨"", "", "", ""⟩ 1 rfl rfl

/-- A nonempty needle occurring as a substring forces a nonempty haystack. -/
lemma subListOf_ne_nil (needle hay : List Char) (h : subListOf needle hay = true)
    (hn : needle ≠ []) : hay ≠ [] := by
  cases hay with
  | nil =>
    simp [subListOf, List.isEmpty_iff] at h
    exact absurd h hn
  | cons c rest => simp

/-- C2: the granularity rules are applied in fixed order with first match
winning: a country that is not the United States yields the normalized
country name (or "Unknown" for an empty country) with granularity country;
else the first configured park occurring case-insensitively in county or
city yields state-abbr dash normalized park name; else a configured major
city occurring case-insensitively in the city field yields state-abbr dash
normalized city with granularity major city; else the state abbreviation
(or "Unknown" for an empty state).  The configured city names are assumed
nonempty, as the default tables are.  In particular the San Francisco
example classifies as "CA-San_Francisco". -/
theorem granularity_rules_first_match (parks cities : List String) (ld : LocationData)
    (hc : ∀ mc ∈ cities, mc ≠ "") :
    (isUS ld.country = false →
      apply_granularity_rules parks cities ld =
        (if ld.country = "" then "Unknown" else normalize_name ld.country, "country"))
    ∧ (∀ park, isUS ld.country = true → parks.find? (parkMatches ld) = some park →
      apply_granularity_rules parks cities ld =
        (get_state_abbreviation ld.state ++ "-" ++ normalize_name park, "national_park"))
    ∧ (isUS ld.country = true → parks.find? (parkMatches ld) = none →
      (∃ mc ∈ cities, cityMatches ld mc = true) →
      apply_granularity_rules parks cities ld =
        (get_state_abbreviation ld.state ++ "-" ++ normalize_name ld.city, "major_city"))
    ∧ (isUS ld.country = true → parks.find? (parkMatches ld) = none →
      (∀ mc ∈ cities, cityMatches ld mc = false) →
      apply_granularity_rules parks cities ld =
        (if ld.state = "" then "Unknown" else get_state_abbreviation ld.state, "state"))
    ∧ apply_granularity_rules default_national_parks default_major_cities
        ⟨"United States", "California", "San Francisco", ""⟩ = ("CA-San_Francisco", "major_city") := by
  refine ⟨?_, ?_, ?_, ?_, by decide⟩
  · intro h
    simp [apply_granularity_rules, h]
  · intro park h hfind
    simp [apply_granularity_rules, h, hfind]
  · intro h hfind hex
    obtain ⟨mc, hmem, hmatch⟩ := hex
    have hcity : ld.city ≠ "" := by
      intro hcity0
      have hne : (lowerStr mc).data ≠ [] := by
        intro h0
        apply hc mc hmem
        obtain ⟨dat⟩ := mc
        have h1 : dat.map Char.toLower = [] := h0
        rw [List.map_eq_nil_iff] at h1
        rw [h1]
      have := subListOf_ne_nil (lowerStr mc).data (lowerStr ld.city).data
        (by simpa [cityMatches, strIn] using hmatch) hne
      apply this
      simp [hcity0, lowerStr]
    have hany : cities.any (cityMatches ld) = true := List.any_eq_true.mpr ⟨mc, hmem, hmatch⟩
    simp [apply_granularity_rules, h, hfind, hany, hcity]
  · intro h hfind hall
    have hany : cities.any (cityMatches ld) = false := by
      rw [List.any_eq_false]
      intro mc hmem
      simp [hall mc hmem]
    simp [apply_granularity_rules, h, hfind, hany]

/-- Witness for C2: the default tables have no empty city name and the
San Francisco address classifies as a major city via the theorem. -/
theorem granularity_rules_first_match_witness :
    (∀ mc ∈ default_major_cities, mc ≠ "")
    ∧ apply_granularity_rules default_national_parks default_major_cities
        ⟨"United States", "California", "San Francisco", ""⟩ = ("CA-San_Francisco", "major_city") := by
  refine ⟨by decide, ?_⟩
  exact (granularity_rules_first_match default_national_parks default_major_cities
    ⟨"United States", "California", "San Francisco", ""⟩ (by decide)).2.2.2.2

/-- C10: name normalization yields only alphanumeric characters,
underscores and hyphens — in particular no spaces — and is idempotent. -/
theorem normalize_name_charset_idempotent (s : String) :
    (∀ c ∈ (normalize_name s).data, c.isAlphanum = true ∨ c = '_' ∨ c = '-')
    ∧ ' ' ∉ (normalize_name s).data
    ∧ normalize_name (normalize_name s) = normalize_name s := by
  have hdata : (normalize_name s).data =
      ((s.data.map fun c => if c = ' ' then '_' else c).filter keepChar) := rfl
  have hkeep : ∀ c ∈ (normalize_name s).data, keepChar c = true := by
    intro c hc
    rw [hdata] at hc
    exact List.of_mem_filter hc
  have hchars : ∀ c ∈ (normalize_name s).data, c.isAlphanum = true ∨ c = '_' ∨ c = '-' := by
    intro c hc
    have := hkeep c hc
    simp only [keepChar, Bool.or_eq_true, beq_iff_eq] at this
    tauto
  refine ⟨hchars, ?_, ?_⟩
  · intro hsp
    rcases hchars ' ' hsp with h | h | h <;> simp_all
  · have hnosp : ∀ c ∈ (normalize_name s).data, (if c = ' ' then '_' else c) = c := by
      intro c hc
      have := hchars c hc
      have hne : c ≠ ' ' := by
        rintro rfl
        rcases this with h | h | h <;> simp_all
      simp [hne]
    have hmapid : (normalize_name s).data.map (fun c => if c = ' ' then '_' else c) =
        (normalize_name s).data := by
      rw [List.map_congr_left hnosp]
      exact List.map_id _
    have hfilt : ((normalize_name s).data.filter keepChar) = (normalize_name s).data :=
      List.filter_eq_self.mpr hkeep
    show String.mk (((normalize_name s).data.map fun c => if c = ' ' then '_' else c).filter keepChar)
      = normalize_name s
    rw [hmapid, hfilt]

/-- Witness for C10 on concrete names. -/
theorem normalize_name_witness :
    normalize_name "San Francisco" = "San_Francisco"
    ∧ normalize_name (normalize_name "New York City!") = normalize_name "New York City!"
    ∧ ' ' ∉ (normalize_name "a b c").data := by
  exact ⟨by decide, (normalize_name_charset_idempotent "New York City!").2.2,
    (normalize_name_charset_idempotent "a b c").2.1⟩

/-- The digit loop is fuel-irrelevant once the fuel exceeds the number. -/
lemma toDigitsCore_fuel_irrel (b : ℕ) (hb : 2 ≤ b) :
    ∀ f1 f2 n l, n < f1 → n < f2 →
      Nat.toDigitsCore b f1 n l = Nat.toDigitsCore b f2 n l := by
  intro f1
  induction f1 with
  | zero => intro f2 n l h1 _; omega
  | succ f ih =>
    intro f2 n l h1 h2
    cases f2 with
    | zero => omega
    | succ f2 =>
      simp only [Nat.toDigitsCore]
      by_cases hd : n / b = 0
      · simp [hd]
      · simp only [hd, if_false]
        have hbn : b ≤ n := by
          by_contra hcon
          exact hd (Nat.div_eq_of_lt (by omega))
        have hlt : n / b < n := Nat.div_lt_self (by omega) (by omega)
        apply ih <;> omega

lemma toDigits_len_lt10 (n : ℕ) (h : n < 10) : (Nat.toDigits 10 n).length = 1 := by
  simp [Nat.toDigits, Nat.toDigitsCore, Nat.div_eq_of_lt h]

lemma toDigits_len_ge10 (n : ℕ) (h : 10 ≤ n) :
    (Nat.toDigits 10 n).length = (Nat.toDigits 10 (n / 10)).length + 1 := by
  have hd : n / 10 ≠ 0 := by omega
  show (Nat.toDigitsCore 10 (n + 1) n []).length = _
  rw [show Nat.toDigitsCore 10 (n + 1) n [] =
      Nat.toDigitsCore 10 n (n / 10) [Nat.digitChar (n % 10)] by
    simp only [Nat.toDigitsCore, hd, if_false]]
  rw [Nat.toDigitsCore_lens_eq]
  congr 1
  show (Nat.toDigitsCore 10 n (n / 10) []).length =
    (Nat.toDigitsCore 10 (n / 10 + 1) (n / 10) []).length
  rw [toDigitsCore_fuel_irrel 10 (by omega) n (n / 10 + 1) (n / 10) [] (by omega) (by omega)]

lemma toString_nat_len (n : ℕ) : (toString n).length = (Nat.toDigits 10 n).length := rfl

lemma toString_len1 (n : ℕ) (h : n < 10) : (toString n).length = 1 := by
  rw [toString_nat_len]
  exact toDigits_len_lt10 n h

/-- Decimal representations of four-digit numbers have four characters. -/
lemma toString_len4 (y : ℕ) (h1 : 1000 ≤ y) (h2 : y < 10000) : (toString y).length = 4 := by
  rw [toString_nat_len]
  have e1 := toDigits_len_ge10 y (by omega)
  have e2 := toDigits_len_ge10 (y / 10) (by omega)
  have e3 := toDigits_len_ge10 (y / 10 / 10) (by omega)
  have e4 := toDigits_len_lt10 (y / 10 / 10 / 10) (by omega)
  omega

/-- The zero-padded two-digit format really has two characters below 100. -/
lemma pad2_len (mo : ℕ) (h : mo < 100) : (pad2 mo).length = 2 := by
  unfold pad2
  by_cases h10 : mo < 10
  · rw [if_pos h10, String.length_append, toString_len1 mo h10]
    rfl
  · rw [if_neg h10, toString_nat_len]
    have e1 := toDigits_len_ge10 mo (by omega)
    have e2 := toDigits_len_lt10 (mo / 10) (by omega)
    omega

/-- C5: with a known capture date the planned path is
root/year/month/location/filename with the decimal year (four digits for
four-digit year values) and zero-padded month, and with no date the month
is omitted entirely: root/Unknown_Date/location/filename, every date
placeholder rendering "Unknown"; a missing location defaults to
"Unknown"; the default-template example renders
"2023-06-15_IMG_1234.jpg" under root/2023/06/CA. -/
theorem generate_path_spec :
    (∀ (g : PathGenerator) (m : MediaMetadata) (loc : Option String) (d : PyDate),
      m.date_taken = some d →
      generate_path g m loc =
        ⟨g.destination_root ++ [toString d.year, pad2 d.month, orUnknown loc],
         renderPattern g.filename_pattern
           ⟨isoDate d, pad4 d.year, pad2 d.month, pad2 d.day, m.stem, m.suffix, ""⟩⟩)
    ∧ (∀ (g : PathGenerator) (m : MediaMetadata) (loc : Option String),
      m.date_taken = none →
      generate_path g m loc =
        ⟨g.destination_root ++ ["Unknown_Date", orUnknown loc],
         renderPattern g.filename_pattern
           ⟨"Unknown", "Unknown", "Unknown", "Unknown", m.stem, m.suffix, ""⟩⟩)
    ∧ orUnknown none = "Unknown"
    ∧ (∀ y, 1000 ≤ y → y < 10000 → (toString y).length = 4)
    ∧ (∀ mo, mo < 100 → (pad2 mo).length = 2)
    ∧ generate_path ⟨["root"], [.date, .lit "_", .origName, .ext]⟩
        ⟨"IMG_1234", ".jpg", some ⟨2023, 6, 15⟩, none⟩ (some "CA") =
        ⟨["root", "2023", "06", "CA"], "2023-06-15_IMG_1234.jpg"⟩
    ∧ generate_path ⟨["root"], [.date, .lit "_", .origName, .ext]⟩
        ⟨"IMG_1234", ".jpg", none, none⟩ none =
        ⟨["root", "Unknown_Date", "Unknown"], "Unknown_IMG_1234.jpg"⟩ := by
  refine ⟨?_, ?_, rfl, toString_len4, pad2_len, by decide, by decide⟩
  · intro g m loc d h
    simp [generate_path, generate_filename, substFor, h]
  · intro g m loc h
    simp [generate_path, generate_filename, substFor, h]

/-- Witness for C5 on a concrete pattern, plus digit-length instances. -/
theorem generate_path_spec_witness :
    generate_path ⟨["lib"], [.year, .month, .day, .lit "_", .origName, .ext]⟩
        ⟨"V_001", ".mp4", some ⟨2021, 12, 31⟩, none⟩ (some "NY-New_York") =
      ⟨["lib", "2021", "12", "NY-New_York"], "20211231_V_001.mp4"⟩
    ∧ (toString 2023).length = 4 ∧ (pad2 6).length = 2 := by
  refine ⟨?_, generate_path_spec.2.2.2.1 2023 (by decide) (by decide),
    generate_path_spec.2.2.2.2.1 6 (by decide)⟩
  rw [generate_path_spec.1 ⟨["lib"], [.year, .month, .day, .lit "_", .origName, .ext]⟩
    ⟨"V_001", ".mp4", some ⟨2021, 12, 31⟩, none⟩ (some "NY-New_York") ⟨2021, 12, 31⟩ rfl]
  decide

/-- The collision loop returns none when every candidate in range exists. -/
lemma firstFree_none (ex : TPath → Bool) (cand : ℕ → TPath) :
    ∀ (fuel start : ℕ), (∀ i, start ≤ i → i < start + fuel → ex (cand i) = true) →
      firstFree ex cand start fuel = none := by
  intro fuel
  induction fuel with
  | zero => intro start _; rfl
  | succ f ih =>
    intro start h
    have h0 : ex (cand start) = true := h start (le_refl start) (by omega)
    simp only [firstFree, h0, if_true]
    exact ih (start + 1) (fun i h1 h2 => h i (by omega) (by omega))

/-- The collision loop returns the first free candidate in range. -/
lemma firstFree_first (ex : TPath → Bool) (cand : ℕ → TPath) :
    ∀ (fuel start i : ℕ), start ≤ i → i < start + fuel → ex (cand i) = false →
      (∀ j, start ≤ j → j < i → ex (cand j) = true) →
      firstFree ex cand start fuel = some (cand i) := by
  intro fuel
  induction fuel with
  | zero => intro start i h1 h2 _ _; omega
  | succ f ih =>
    intro start i h1 h2 hfree hocc
    by_cases hs : i = start
    · subst hs
      simp [firstFree, hfree]
    · have h0 : ex (cand start) = true := hocc start (le_refl start) (by omega)
      simp only [firstFree, h0, if_true]
      exact ih (start + 1) i (by omega) (by omega) hfree
        (fun j hj1 hj2 => hocc j (by omega) hj2)

/-- C4: collision resolution returns the target unchanged when it does
not exist; when the pattern holds the counter placeholder (and metadata
is supplied, as the organizer does) it re-renders the filename with
counters _1, _2, ... and returns the first free candidate; otherwise it
inserts _1, _2, ... between stem and extension; in both branches all
1000 attempts colliding raises the path-exhaustion error, modelled as
none. -/
theorem ensure_unique_path_spec (g : PathGenerator) (ex : TPath → Bool) (target : TPath) :
    (ex target = false → ∀ md, ensure_unique_path g ex target md = some target)
    ∧ (∀ (m : MediaMetadata) (k : ℕ), ex target = true →
      g.filename_pattern.contains TItem.counter = true →
      1 ≤ k → k ≤ 1000 → ex (counterCand g m target.dir k) = false →
      (∀ j, 1 ≤ j → j < k → ex (counterCand g m target.dir j) = true) →
      ensure_unique_path g ex target (some m) = some (counterCand g m target.dir k))
    ∧ (∀ m : MediaMetadata, ex target = true →
      g.filename_pattern.contains TItem.counter = true →
      (∀ k, 1 ≤ k → k ≤ 1000 → ex (counterCand g m target.dir k) = true) →
      ensure_unique_path g ex target (some m) = none)
    ∧ (∀ (md : Option MediaMetadata) (k : ℕ), ex target = true →
      g.filename_pattern.contains TItem.counter = false →
      1 ≤ k → k ≤ 1000 → ex (fallbackCand target k) = false →
      (∀ j, 1 ≤ j → j < k → ex (fallbackCand target j) = true) →
      ensure_unique_path g ex target md = some (fallbackCand target k))
    ∧ (∀ md : Option MediaMetadata, ex target = true →
      g.filename_pattern.contains TItem.counter = false →
      (∀ k, 1 ≤ k → k ≤ 1000 → ex (fallbackCand target k) = true) →
      ensure_unique_path g ex target md = none) := by
  refine ⟨?_, ?_, ?_, ?_, ?_⟩
  · intro hfree md
    simp [ensure_unique_path, hfree]
  · intro m k hex hcnt hk1 hk2 hfree hocc
    simp only [ensure_unique_path, hex, if_true, hcnt]
    exact firstFree_first ex (counterCand g m target.dir) 1000 1 k hk1 (by omega) hfree
      (fun j hj1 hj2 => hocc j hj1 hj2)
  · intro m hex hcnt hall
    simp only [ensure_unique_path, hex, if_true, hcnt]
    exact firstFree_none ex (counterCand g m target.dir) 1000 1
      (fun i h1 h2 => hall i h1 (by omega))
  · intro md k hex hcnt hk1 hk2 hfree hocc
    simp only [ensure_unique_path, hex, if_true, hcnt]
    cases md with
    | none =>
      exact firstFree_first ex (fallbackCand target) 1000 1 k hk1 (by omega) hfree hocc
    | some m =>
      exact firstFree_first ex (fallbackCand target) 1000 1 k hk1 (by omega) hfree hocc
  · intro md hex hcnt hall
    simp only [ensure_unique_path, hex, if_true, hcnt]
    cases md with
    | none =>
      exact firstFree_none ex (fallbackCand target) 1000 1 (fun i h1 h2 => hall i h1 (by omega))
    | some m =>
      exact firstFree_none ex (fallbackCand target) 1000 1 (fun i h1 h2 => hall i h1 (by omega))

/-- Witness for C4 on a concrete occupied filesystem. -/
theorem ensure_unique_path_witness :
    ensure_unique_path ⟨["root"], [TItem.date]⟩ (fun p => p == ⟨["root"], "a.jpg"⟩)
        ⟨["root"], "b.jpg"⟩ none = some ⟨["root"], "b.jpg"⟩
    ∧ ensure_unique_path ⟨["root"], [TItem.date]⟩ (fun p => p == ⟨["root"], "a.jpg"⟩)
        ⟨["root"], "a.jpg"⟩ none = some ⟨["root"], "a_1.jpg"⟩ := by
  constructor
  · exact (ensure_unique_path_spec ⟨["root"], [TItem.date]⟩
      (fun p => p == ⟨["root"], "a.jpg"⟩) ⟨["root"], "b.jpg"⟩).1 (by decide) none
  · exact (ensure_unique_path_spec ⟨["root"], [TItem.date]⟩
      (fun p => p == ⟨["root"], "a.jpg"⟩) ⟨["root"], "a.jpg"⟩).2.2.2.1 none 1
      (by decide) (by decide) (by decide) (by decide) (by decide) (fun j hj1 hj2 => by omega)

/-- C3: for a verified copy, a mismatch at either stage — sizes first,
digests only when the sizes agree — makes the operation fail: the
destination copy is deleted, the rest of the filesystem is untouched, and
one failure record with the integrity-verification error is appended to
the transaction log; moreover on a size mismatch the outcome does not
depend on the hash function at all (the digests are never consulted), and
verify file integrity itself returns false on any size mismatch
independently of the hash. -/
theorem copy_verify_mismatch (h : Bytes → ℕ) (transmit : Bytes → Bytes) (now : ℕ)
    (fs : FS) (log : List TxRecord) (source destination : TPath) (b : Bytes)
    (hsrc : fs source = some b) (hne : source ≠ destination) :
    (((transmit b).length ≠ b.length ∨ h b ≠ h (transmit b)) →
      (perform_file_operation .copy true h transmit now fs log source destination).1 = false
      ∧ (perform_file_operation .copy true h transmit now fs log source destination).2.1
          destination = none
      ∧ (∀ p, p ≠ destination →
          (perform_file_operation .copy true h transmit now fs log source destination).2.1 p = fs p)
      ∧ (perform_file_operation .copy true h transmit now fs log source destination).2.2 =
          log ++ [⟨now, "copy", source, destination, false, some "Integrity verification failed"⟩])
    ∧ ((transmit b).length ≠ b.length → ∀ h2 : Bytes → ℕ,
      perform_file_operation .copy true h2 transmit now fs log source destination =
        perform_file_operation .copy true h transmit now fs log source destination)
    ∧ (∀ (fs2 : FS) (s d : Bytes), fs2 source = some s → fs2 destination = some d →
      s.length ≠ d.length → ∀ h2 : Bytes → ℕ,
      verify_file_integrity fs2 h2 source destination = false) := by
  have hfs1src : fsUpdate fs destination (some (transmit b)) source = some b := by
    simp [fsUpdate, hne, hsrc]
  have hfs1dst : fsUpdate fs destination (some (transmit b)) destination = some (transmit b) := by
    simp [fsUpdate]
  refine ⟨?_, ?_, ?_⟩
  · intro hbad
    have hverify : verify_file_integrity (fsUpdate fs destination (some (transmit b))) h
        source destination = false := by
      simp only [verify_file_integrity, hfs1src, hfs1dst]
      rcases hbad with hlen | hhash
      · rw [if_pos (fun hc => hlen hc.symm)]
      · by_cases hlen : b.length ≠ (transmit b).length
        · rw [if_pos hlen]
        · rw [if_neg hlen]
          simp [hhash]
    have hop : perform_file_operation .copy true h transmit now fs log source destination =
        (false, fsUpdate (fsUpdate fs destination (some (transmit b))) destination none,
         log ++ [⟨now, "copy", source, destination, false, some "Integrity verification failed"⟩]) := by
      simp [perform_file_operation, hsrc, hverify, log_operation]
    rw [hop]
    refine ⟨rfl, by simp [fsUpdate], ?_, rfl⟩
    intro p hp
    simp [fsUpdate, hp]
  · intro hlen h2
    have hv2 : ∀ h3 : Bytes → ℕ, verify_file_integrity (fsUpdate fs destination (some (transmit b))) h3
        source destination = false := by
      intro h3
      simp only [verify_file_integrity, hfs1src, hfs1dst]
      rw [if_pos (fun hc => hlen hc.symm)]
    simp only [perform_file_operation, hsrc, hv2, Bool.not_false, Bool.and_true, if_true]
  · intro fs2 s d hs hd hlen h2
    simp only [verify_file_integrity, hs, hd]
    rw [if_pos hlen]

/-- Witness for C3: copying two bytes through a corrupting transmission
of three bytes fails, deletes the destination and logs the failure. -/
theorem copy_verify_mismatch_witness :
    (perform_file_operation .copy true (fun b => b.length) (fun _ => [9, 9, 9]) 0
      (fun p => if p = ⟨["s"], "f"⟩ then some [1, 2] else none) [] ⟨["s"], "f"⟩ ⟨["d"], "f"⟩).1
      = false
    ∧ (perform_file_operation .copy true (fun b => b.length) (fun _ => [9, 9, 9]) 0
      (fun p => if p = ⟨["s"], "f"⟩ then some [1, 2] else none) [] ⟨["s"], "f"⟩ ⟨["d"], "f"⟩).2.1
      ⟨["d"], "f"⟩ = none
    ∧ (perform_file_operation .copy true (fun b => b.length) (fun _ => [9, 9, 9]) 0
      (fun p => if p = ⟨["s"], "f"⟩ then some [1, 2] else none) [] ⟨["s"], "f"⟩ ⟨["d"], "f"⟩).2.2
      = [⟨0, "copy", ⟨["s"], "f"⟩, ⟨["d"], "f"⟩, false, some "Integrity verification failed"⟩] := by
  have h := (copy_verify_mismatch (fun b => b.length) (fun _ => [9, 9, 9]) 0
    (fun p => if p = ⟨["s"], "f"⟩ then some [1, 2] else none) [] ⟨["s"], "f"⟩ ⟨["d"], "f"⟩ [1, 2]
    (by decide) (by decide)).1 (Or.inl (by decide))
  exact ⟨h.1, h.2.1, h.2.2.2⟩

/-- Availability counters do not touch processed, failed or errors. -/
lemma record_date_counters (s : Statistics) (b : Bool) :
    (record_date s b).processed_files = s.processed_files
    ∧ (record_date s b).failed_files = s.failed_files
    ∧ (record_date s b).errors = s.errors := by
  cases b <;> simp [record_date]

lemma record_gps_counters (s : Statistics) (b : Bool) :
    (record_gps s b).processed_files = s.processed_files
    ∧ (record_gps s b).failed_files = s.failed_files
    ∧ (record_gps s b).errors = s.errors := by
  cases b <;> simp [record_gps]

lemma record_location_counters (s : Statistics) (loc : String) :
    (record_location s loc).processed_files = s.processed_files
    ∧ (record_location s loc).failed_files = s.failed_files
    ∧ (record_location s loc).errors = s.errors := by
  unfold record_location
  by_cases h : s.unique_locations.contains loc = true <;> simp only [h, if_true,
    Bool.false_eq_true, if_false] <;> simp_all

/-- The location block either raises or preserves processed, failed,
errors, filesystem and log. -/
lemma locateStep_stats (cfg : OrganizerConfig) (f : FileInput) (st : RunState)
    (m : MediaMetadata) :
    (∃ e, locateStep cfg f st m = .error e)
    ∨ (∃ loc st2, locateStep cfg f st m = .ok (loc, st2)
      ∧ st2.stats.processed_files = st.stats.processed_files
      ∧ st2.stats.failed_files = st.stats.failed_files
      ∧ st2.stats.errors = st.stats.errors
      ∧ st2.fs = st.fs ∧ st2.log = st.log) := by
  unfold locateStep
  rcases hg : m.gps_coords with _ | ⟨lat, lon⟩
  · exact Or.inr ⟨none, st, rfl, rfl, rfl, rfl, rfl, rfl⟩
  · rcases hcg : cache_get st.cache lat lon 4 with e | oentry
    · simp only [hcg]
      exact Or.inl ⟨e, rfl⟩
    · rcases oentry with _ | entry
      · simp only [hcg]
        rcases hgl : get_location_name cfg.parks cfg.cities cfg.geo f.now st.cache lat lon with
          e | ⟨lname, c2, n⟩
        · simp only [hgl]
          exact Or.inl ⟨e, rfl⟩
        · simp only [hgl]
          refine Or.inr ⟨some lname, _, rfl, ?_, ?_, ?_, rfl, rfl⟩
          · rw [(record_location_counters (record_api_call st.stats) lname).1]
            rfl
          · rw [(record_location_counters (record_api_call st.stats) lname).2.1]
            rfl
          · rw [(record_location_counters (record_api_call st.stats) lname).2.2]
            rfl
      · simp only [hcg]
        refine Or.inr ⟨some entry.location_name, _, rfl, ?_, ?_, ?_, rfl, rfl⟩
        · rw [(record_location_counters (record_cache_hit st.stats) entry.location_name).1]
          rfl
        · rw [(record_location_counters (record_cache_hit st.stats) entry.location_name).2.1]
          rfl
        · rw [(record_location_counters (record_cache_hit st.stats) entry.location_name).2.2]
          rfl

/-- The duplicate block either raises or preserves processed, failed,
errors, filesystem and log. -/
lemma uniqueStep_stats (cfg : OrganizerConfig) (f : FileInput) (st : RunState)
    (m : MediaMetadata) (target : TPath) :
    (∃ e, uniqueStep cfg f st m target = .error e)
    ∨ (∃ t st3, uniqueStep cfg f st m target = .ok (t, st3)
      ∧ st3.stats.processed_files = st.stats.processed_files
      ∧ st3.stats.failed_files = st.stats.failed_files
      ∧ st3.stats.errors = st.stats.errors
      ∧ st3.fs = st.fs ∧ st3.log = st.log) := by
  unfold uniqueStep
  by_cases hex : (st.fs target).isSome
  · simp only [hex, if_true]
    match hu : ensure_unique_path cfg.pathGen (fun p => (st.fs p).isSome) target (some m) with
    | none => exact Or.inl ⟨_, rfl⟩
    | some t =>
      exact Or.inr ⟨t, _, rfl, rfl, rfl, rfl, rfl, rfl⟩
  · simp only [hex, Bool.false_eq_true, if_false]
    exact Or.inr ⟨target, st, rfl, rfl, rfl, rfl, rfl, rfl⟩

/-- Processing one file ends in exactly one of two ways: one processed
file recorded, or one failure recorded with its message; the counters
reached before the outcome agree with the incoming state. -/
lemma process_file_shape (cfg : OrganizerConfig) (st : RunState) (f : FileInput) :
    ∃ s1 : Statistics,
      s1.processed_files = st.stats.processed_files
      ∧ s1.failed_files = st.stats.failed_files
      ∧ s1.errors = st.stats.errors
      ∧ ((process_file cfg st f).stats = record_processed s1
        ∨ ∃ msg, (process_file cfg st f).stats = record_failed s1 msg) := by
  unfold process_file
  rcases hext : f.extract with e | m
  · exact ⟨st.stats, rfl, rfl, rfl, Or.inr ⟨_, rfl⟩⟩
  · simp only []
    set st1 : RunState := { st with
      stats := record_gps (record_date st.stats m.date_taken.isSome) m.gps_coords.isSome } with hst1
    have hc1 : st1.stats.processed_files = st.stats.processed_files
        ∧ st1.stats.failed_files = st.stats.failed_files
        ∧ st1.stats.errors = st.stats.errors := by
      rw [hst1]
      refine ⟨?_, ?_, ?_⟩
      · rw [show ({ st with
            stats := record_gps (record_date st.stats m.date_taken.isSome) m.gps_coords.isSome }
            : RunState).stats = record_gps (record_date st.stats m.date_taken.isSome)
            m.gps_coords.isSome from rfl]
        rw [(record_gps_counters _ _).1, (record_date_counters _ _).1]
      · rw [show ({ st with
            stats := record_gps (record_date st.stats m.date_taken.isSome) m.gps_coords.isSome }
            : RunState).stats = record_gps (record_date st.stats m.date_taken.isSome)
            m.gps_coords.isSome from rfl]
        rw [(record_gps_counters _ _).2.1, (record_date_counters _ _).2.1]
      · rw [show ({ st with
            stats := record_gps (record_date st.stats m.date_taken.isSome) m.gps_coords.isSome }
            : RunState).stats = record_gps (record_date st.stats m.date_taken.isSome)
            m.gps_coords.isSome from rfl]
        rw [(record_gps_counters _ _).2.2, (record_date_counters _ _).2.2]
    rcases locateStep_stats cfg f st1 m with ⟨e, hL⟩ | ⟨loc, st2, hL, hl1, hl2, hl3, _, _⟩
    · simp only [hL]
      exact ⟨st1.stats, hc1.1, hc1.2.1, hc1.2.2, Or.inr ⟨_, rfl⟩⟩
    · simp only [hL]
      rcases uniqueStep_stats cfg f st2 m (generate_path cfg.pathGen m loc) with
        ⟨e, hU⟩ | ⟨t, st3, hU, hu1, hu2, hu3, _, _⟩
      · simp only [hU]
        exact ⟨st2.stats, by omega, by omega, by rw [hl3, hc1.2.2], Or.inr ⟨_, rfl⟩⟩
      · simp only [hU]
        have hp3 : st3.stats.processed_files = st.stats.processed_files := by omega
        have hf3 : st3.stats.failed_files = st.stats.failed_files := by omega
        have he3 : st3.stats.errors = st.stats.errors := by rw [hu3, hl3, hc1.2.2]
        by_cases hmk : (cfg.dry_run || f.mkdirOk) = true
        · rw [if_neg (by simp [hmk])]
          by_cases hdry : cfg.dry_run = true
          · rw [if_pos hdry]
            exact ⟨st3.stats, hp3, hf3, he3, Or.inl rfl⟩
          · rw [if_neg hdry]
            rcases hop : perform_file_operation cfg.mode cfg.verify cfg.hash f.transmit f.now
              st3.fs st3.log f.path t with ⟨ok, fs2, log2⟩
            cases ok
            · simp only [hop]
              exact ⟨st3.stats, hp3, hf3, he3, Or.inr ⟨_, rfl⟩⟩
            · simp only [hop]
              exact ⟨st3.stats, hp3, hf3, he3, Or.inl rfl⟩
        · rw [if_pos (by simpa using hmk)]
          exact ⟨st3.stats, hp3, hf3, he3, Or.inr ⟨_, rfl⟩⟩

/-- C9: every per-file error — metadata extraction, cache storage,
path-collision exhaustion, directory creation, operation or integrity
failure — is caught inside per-file processing, which always returns
(never propagates an exception by construction): each file adds exactly
one to processed plus failed, each failure appends exactly one message to
the error list, a metadata-extraction error is recorded with the file
name prefixed, and the run continues over the remaining files, every
file of the list being accounted for. -/
theorem per_file_errors_contained (cfg : OrganizerConfig) :
    (∀ (st : RunState) (f : FileInput),
      (process_file cfg st f).stats.processed_files + (process_file cfg st f).stats.failed_files
        = st.stats.processed_files + st.stats.failed_files + 1
      ∧ (process_file cfg st f).stats.errors.length
        = st.stats.errors.length
          + ((process_file cfg st f).stats.failed_files - st.stats.failed_files)
      ∧ st.stats.failed_files ≤ (process_file cfg st f).stats.failed_files)
    ∧ (∀ (st : RunState) (f : FileInput) (e : String), f.extract = .error e →
      (process_file cfg st f).stats.failed_files = st.stats.failed_files + 1
      ∧ (process_file cfg st f).stats.errors = st.stats.errors ++ [f.path.name ++ ": " ++ e])
    ∧ (∀ (files : List FileInput) (st : RunState),
      (process_files cfg files st).stats.processed_files
        + (process_files cfg files st).stats.failed_files
        = st.stats.processed_files + st.stats.failed_files + files.length) := by
  have hone : ∀ (st : RunState) (f : FileInput),
      (process_file cfg st f).stats.processed_files + (process_file cfg st f).stats.failed_files
        = st.stats.processed_files + st.stats.failed_files + 1
      ∧ (process_file cfg st f).stats.errors.length
        = st.stats.errors.length
          + ((process_file cfg st f).stats.failed_files - st.stats.failed_files)
      ∧ st.stats.failed_files ≤ (process_file cfg st f).stats.failed_files := by
    intro st f
    obtain ⟨s1, hp, hf, he, hcase⟩ := process_file_shape cfg st f
    rcases hcase with hok | ⟨msg, hfail⟩
    · rw [hok]
      simp only [record_processed]
      refine ⟨by omega, ?_, by omega⟩
      rw [he, hf]
      omega
    · rw [hfail]
      simp only [record_failed]
      refine ⟨by omega, ?_, by omega⟩
      rw [List.length_append, he, hf]
      simp
  refine ⟨hone, ?_, ?_⟩
  · intro st f e hext
    have : process_file cfg st f = failWith st f e := by
      unfold process_file
      rw [hext]
    rw [this]
    simp [failWith, record_failed]
  · intro files
    induction files with
    | nil => intro st; simp [process_files]
    | cons f rest ih =>
      intro st
      have hstep := hone st f
      have := ih (process_file cfg st f)
      simp only [process_files, List.foldl_cons, List.length_cons] at this ⊢
      omega

/-- Witness for C9: a file whose metadata extraction raises is recorded
as one failure with its message, and the one-file run accounts for it. -/
theorem per_file_errors_contained_witness :
    (process_file
        ⟨.copy, false, true, ⟨["root"], [TItem.date]⟩, [], [], ⟨none, fun _ _ => none⟩, fun _ => 0⟩
        ⟨emptyCache, fun _ => none, [], ⟨0, 0, 0, 0, 0, 0, 0, 0, [], 0, 0, 0, []⟩, []⟩
        ⟨⟨["src"], "x.jpg"⟩, .error "boom", true, id, 0⟩).stats.failed_files = 1
    ∧ (process_file
        ⟨.copy, false, true, ⟨["root"], [TItem.date]⟩, [], [], ⟨none, fun _ _ => none⟩, fun _ => 0⟩
        ⟨emptyCache, fun _ => none, [], ⟨0, 0, 0, 0, 0, 0, 0, 0, [], 0, 0, 0, []⟩, []⟩
        ⟨⟨["src"], "x.jpg"⟩, .error "boom", true, id, 0⟩).stats.errors = ["x.jpg: boom"]
    ∧ (process_files
        ⟨.copy, false, true, ⟨["root"], [TItem.date]⟩, [], [], ⟨none, fun _ _ => none⟩, fun _ => 0⟩
        [⟨⟨["src"], "x.jpg"⟩, .error "boom", true, id, 0⟩]
        ⟨emptyCache, fun _ => none, [], ⟨0, 0, 0, 0, 0, 0, 0, 0, [], 0, 0, 0, []⟩, []⟩
        ).stats.processed_files
      + (process_files
        ⟨.copy, false, true, ⟨["root"], [TItem.date]⟩, [], [], ⟨none, fun _ _ => none⟩, fun _ => 0⟩
        [⟨⟨["src"], "x.jpg"⟩, .error "boom", true, id, 0⟩]
        ⟨emptyCache, fun _ => none, [], ⟨0, 0, 0, 0, 0, 0, 0, 0, [], 0, 0, 0, []⟩, []⟩
        ).stats.failed_files = 1 := by
  refine ⟨?_, ?_, ?_⟩
  · exact ((per_file_errors_contained _).2.1 _ _ "boom" rfl).1
  · exact ((per_file_errors_contained _).2.1 _ _ "boom" rfl).2
  · exact (per_file_errors_contained _).2.2 [⟨⟨["src"], "x.jpg"⟩, .error "boom", true, id, 0⟩] _

end PhotoOrg
